import Mathlib

/-!
Shallow embedding of the data-transformation core of the `ens-manage-hub`
dashboard (sources: `src/utils.py`, `src/app.py`, `src/components.py`).

Numeric dataframe cells produced by `pd.to_numeric(..., errors='coerce')`
are modelled as `Option ℚ` (`none` = NaN / missing).  The derived
`enrollment_rate` column can additionally hold IEEE infinities, so it gets
its own carrier `ERate`.  List-valued JSON fields that the code guards with
`isinstance(x, list)` are modelled as `Option (List String)` (`none` =
not-a-list).  Python `a in b` substring tests are modelled by an executable
infix check over the underlying character lists.
-/

namespace EnsHub

/-- Models Python `str.lower()` on the character level (ASCII case folding,
which covers every string constant the code compares against). -/
def lowerList (l : List Char) : List Char := l.map Char.toLower

/-- Models Python `str.upper()` (used on course titles in the
performance-class classifier). -/
def upperStr (s : String) : String := String.mk (s.toList.map Char.toUpper)

/-- `listPrefB n h = true` iff `n` is a prefix of `h` (executable). -/
def listPrefB : List Char → List Char → Bool
  | [], _ => true
  | _ :: _, [] => false
  | a :: as, b :: bs => a == b && listPrefB as bs

/-- `listInfB n h = true` iff `n` occurs contiguously inside `h`
(executable contiguous-substring check). -/
def listInfB (n : List Char) : List Char → Bool
  | [] => n.isEmpty
  | c :: cs => listPrefB n (c :: cs) || listInfB n cs

/-- Models the Python expression `needle in hay` on strings
(case-sensitive contiguous substring). -/
def pyIn (needle hay : String) : Bool := listInfB needle.toList hay.toList

/-- Models `needle.lower() in hay.lower()` (case-insensitive substring),
the form used by the free-text search on faculty names and course titles. -/
def pyInCI (needle hay : String) : Bool :=
  listInfB (lowerList needle.toList) (lowerList hay.toList)

/-- One row of the loaded dataframe, after the cleaning steps of
`load_data` (`src/app.py` lines 30-49) / `load_ensemble_data`
(`src/utils.py` lines 22-44): the four numeric columns have been through
`pd.to_numeric(..., errors='coerce')` (`none` = NaN), and the three rhythm
columns have been normalised to real lists (`x if isinstance(x, list)
else []`, with `rhythmenrolled` entries through `int`). -/
structure ClassRecord where
  sectionName : String
  titlelongcrs : Option (List String)
  facnamepreffml : Option (List String)
  seatsavail : Option ℚ
  activestucount : Option ℚ
  seatscap : Option ℚ
  ratingOverall : Option ℚ
  style : String
  days : Option (List String)
  startTime : Option (List String)
  endTime : Option (List String)
  rhythm_instruments : List String
  rhythm_enrolled : List ℤ
  rhythm_needed : List String
  deriving DecidableEq

/-- Value of the derived `enrollment_rate` column.  After `.fillna(0)` the
column can never hold NaN, but it can hold the IEEE infinities that pandas
produces for `x / 0` with `x ≠ 0`, so those are explicit constructors. -/
inductive ERate where
  | val (q : ℚ)
  | pinf
  | ninf
  deriving DecidableEq

/-- The loader's derived column
`(activestucount / seatscap * 100).fillna(0)` (`src/app.py` line 43,
`src/utils.py` line 36), with pandas float semantics: NaN on either side
propagates and is then replaced by 0; `0 / 0` is NaN (hence 0 after
`fillna`); `a / 0` with `a ≠ 0` is a signed infinity, which `fillna`
leaves untouched; otherwise the quotient is exact. -/
def enrollment_rate (active cap : Option ℚ) : ERate :=
  match active, cap with
  | none, _ => ERate.val 0
  | _, none => ERate.val 0
  | some a, some c =>
    if c = 0 then
      if a = 0 then ERate.val 0
      else if 0 < a then ERate.pinf
      else ERate.ninf
    else ERate.val (a / c * 100)

/-- The `enrollment_rate` field of a loaded record. -/
def recordEnrollmentRate (r : ClassRecord) : ERate :=
  enrollment_rate r.activestucount r.seatscap

/-- C1 counterexample: a record with 4 active students and a seat capacity
of 0 gets `enrollment_rate = +∞`, not 0 — `activestucount / 0` is the
float `inf`, which `.fillna(0)` does not replace (it only replaces NaN).
The claim says a zero capacity always yields rate 0 and that the rate is
never infinite. -/
theorem c1_rate_zero_cap_counterexample :
    enrollment_rate (some 4) (some 0) = ERate.pinf ∧
    ERate.pinf ≠ ERate.val 0 := by
  refine ⟨?_, by decide⟩
  simp [enrollment_rate]

/-- C1 (amended): for records whose coerced student count and capacity are
each missing or nonnegative, the derived rate is
`activestucount / seatscap * 100`, except that it is exactly 0 when the
capacity is missing, the count is missing, or count and capacity are both
0; when the capacity is 0 and the count is positive the rate is `+∞` (not
0), so the rate always lies in `[0, ∞) ∪ {+∞}` and is never NaN, never
`-∞`, and never an error. -/
theorem c1_rate_characterization (active cap : Option ℚ)
    (ha : ∀ q, active = some q → 0 ≤ q) (hc : ∀ q, cap = some q → 0 ≤ q) :
    (cap = none → enrollment_rate active cap = ERate.val 0) ∧
    (active = none → enrollment_rate active cap = ERate.val 0) ∧
    (active = some 0 → cap = some 0 → enrollment_rate active cap = ERate.val 0) ∧
    (∀ qa, active = some qa → 0 < qa → cap = some 0 →
      enrollment_rate active cap = ERate.pinf) ∧
    (∀ qa qc, active = some qa → cap = some qc → qc ≠ 0 →
      enrollment_rate active cap = ERate.val (qa / qc * 100)) ∧
    (∀ q, enrollment_rate active cap = ERate.val q → 0 ≤ q) ∧
    enrollment_rate active cap ≠ ERate.ninf := by
  obtain _ | qa := active <;> obtain _ | qc := cap
  · simp [enrollment_rate]
  · simp [enrollment_rate]
  · simp [enrollment_rate]
  · have hqa : 0 ≤ qa := ha qa rfl
    have hqc : 0 ≤ qc := hc qc rfl
    by_cases h0 : qc = 0
    · subst h0
      by_cases ha0 : qa = 0
      · subst ha0; simp [enrollment_rate]
      · have hpos : 0 < qa := lt_of_le_of_ne hqa (Ne.symm ha0)
        simp only [enrollment_rate, if_pos rfl, if_neg ha0, if_pos hpos]
        refine ⟨by simp, by simp, ?_, ?_, ?_, ?_, by simp⟩
        · intro h; exact absurd (Option.some.inj h) ha0
        · intro qa' h; simp_all
        · intro qa' qc' h1 h2 h3
          exact absurd (Option.some.inj h2).symm h3
        · intro q h; cases h
    · simp only [enrollment_rate, if_neg h0]
      refine ⟨by simp, by simp, ?_, ?_, ?_, ?_, by simp⟩
      · intro _ h; exact absurd (Option.some.inj h) h0
      · intro qa' h1 h2 h3
        exact absurd (Option.some.inj h3) h0
      · intro qa' qc' h1 h2 _
        obtain rfl := Option.some.inj h1
        obtain rfl := Option.some.inj h2
        rfl
      · intro q h
        obtain rfl := (ERate.val.inj h).symm
        have : 0 ≤ qa / qc := div_nonneg hqa hqc
        linarith

/-- Witness for C1's amended theorem at count 5, capacity 10. -/
theorem c1_rate_characterization_witness :
    enrollment_rate (some 5) (some 10) = ERate.val 50 := by
  have h := (c1_rate_characterization (some 5) (some 10)
    (by intro q hq; obtain rfl := Option.some.inj hq; norm_num)
    (by intro q hq; obtain rfl := Option.some.inj hq; norm_num)).2.2.2.2.1
    5 10 rfl rfl (by norm_num)
  rw [h]
  norm_num

/-- The fixed instrument-code list of `load_data` (`src/app.py` line 52). -/
def instruments : List String := ["GUIT", "PNO", "BASS", "DRUMS", "VOICE"]

/-- `df[f'{instrument}_enrolled']`: the `i`-th element of `rhythm_enrolled`,
or 0 when the list is shorter (`x[i] if i < len(x) else 0`,
`src/app.py` lines 54-56, `src/utils.py` lines 60-62). -/
def enrolledCount (re : List ℤ) (i : ℕ) : ℤ := re.getD i 0

/-- `df[f'{instrument}_needed']`: `rhythm_needed.count(instrument)`
(`src/app.py` lines 57-59, `src/utils.py` lines 63-65). -/
def neededCount (rn : List String) (inst : String) : ℕ := rn.count inst

/-- `df[f'{instrument}_status']` (`src/app.py` lines 60-64,
`src/utils.py` lines 66-70): `'Filled'` if the enrolled count is positive,
else `'Needed'` if the needed count is positive, else `'Not Required'`. -/
def instStatus (re : List ℤ) (rn : List String) (i : ℕ) (inst : String) : String :=
  if 0 < enrolledCount re i then "Filled"
  else if 0 < neededCount rn inst then "Needed"
  else "Not Required"

/-- C2: for every record with (nonnegative) enrollment counts and every
index `i` into the fixed 5-code instrument list, the status is `Filled`
iff the enrolled count is positive, `Needed` iff the enrolled count is 0
and the needed count is positive, and `Not Required` iff both are 0; the
three statuses are mutually exclusive (the iffs have disjoint right-hand
sides) and exhaustive (last conjunct). -/
theorem c2_instrument_status (re : List ℤ) (rn : List String) (i : ℕ)
    (hi : i < instruments.length) (hnn : ∀ x ∈ re, 0 ≤ x) :
    (instStatus re rn i (instruments.getD i "") = "Filled" ↔
      0 < enrolledCount re i) ∧
    (instStatus re rn i (instruments.getD i "") = "Needed" ↔
      enrolledCount re i = 0 ∧ 0 < neededCount rn (instruments.getD i "")) ∧
    (instStatus re rn i (instruments.getD i "") = "Not Required" ↔
      enrolledCount re i = 0 ∧ neededCount rn (instruments.getD i "") = 0) ∧
    (instStatus re rn i (instruments.getD i "") = "Filled" ∨
      instStatus re rn i (instruments.getD i "") = "Needed" ∨
      instStatus re rn i (instruments.getD i "") = "Not Required") := by
  have h0 : 0 ≤ enrolledCount re i := by
    unfold enrolledCount
    rcases Nat.lt_or_ge i re.length with h | h
    · rw [List.getD_eq_getElem?_getD, List.getElem?_eq_getElem h,
        Option.getD_some]
      exact hnn _ (List.getElem_mem h)
    · rw [List.getD_eq_getElem?_getD, List.getElem?_eq_none h,
        Option.getD_none]
  unfold instStatus
  split_ifs with h1 h2 <;> simp_all <;> omega

/-- Witness for C2 at `rhythm_enrolled = [2,0,0,0,0]`,
`rhythm_needed = ["BASS"]`, instrument index 0 (GUIT). -/
theorem c2_instrument_status_witness :
    instStatus [(2 : ℤ), 0, 0, 0, 0] ["BASS"] 0 (instruments.getD 0 "") =
      "Filled" :=
  (c2_instrument_status [(2 : ℤ), 0, 0, 0, 0] ["BASS"] 0 (by decide)
    (by decide)).1.mpr (by decide)

/-- The status text returned by `get_enrollment_status`
(`src/utils.py` lines 206-230).  The source returns the literal strings
`"CRITICAL - NO STUDENTS"`, `"CRITICAL - ONLY 1 STUDENT"`,
`"WARNING - ONLY 2 STUDENTS"`, `"WARNING - ONLY 3 STUDENTS"`,
`f"LOW ENROLLMENT - rate%"` and `f"GOOD ENROLLMENT - rate%"`; the decimal
formatting of the rate is abstracted into a constructor argument. -/
inductive StatusText where
  | criticalNoStudents
  | criticalOnly1Student
  | warningOnly2Students
  | warningOnly3Students
  | lowEnrollment (rate : ℚ)
  | goodEnrollment (rate : ℚ)
  deriving DecidableEq

/-- `get_enrollment_status(enrolled_count, total_capacity)`
(`src/utils.py` lines 206-230), on the ints its signature declares.
Counts 0-3 return immediately without reading the capacity; any other
count computes `enrolled_count / total_capacity * 100` with no
zero-capacity guard, so capacity 0 has no defined result (`none`:
`ZeroDivisionError` on ints). -/
def get_enrollment_status (enrolled_count total_capacity : ℤ) :
    Option (String × String × StatusText) :=
  if enrolled_count = 0 then
    some ("danger", "🚨", StatusText.criticalNoStudents)
  else if enrolled_count = 1 then
    some ("danger", "🚨", StatusText.criticalOnly1Student)
  else if enrolled_count = 2 then
    some ("warning", "⚠️", StatusText.warningOnly2Students)
  else if enrolled_count = 3 then
    some ("warning", "⚠️", StatusText.warningOnly3Students)
  else if total_capacity = 0 then none
  else if ((enrolled_count : ℚ) / (total_capacity : ℚ)) * 100 < 25 then
    some ("warning", "⚠️",
      StatusText.lowEnrollment (((enrolled_count : ℚ) / total_capacity) * 100))
  else
    some ("success", "✅",
      StatusText.goodEnrollment (((enrolled_count : ℚ) / total_capacity) * 100))

/-- C7: the low-enrollment tiers are a pure function of the student count
alone — for counts 0, 1, 2, 3 the result is the stated severity/text for
every capacity `c` (the capacity is never read). -/
theorem c7_low_enrollment_tiers (c : ℤ) :
    get_enrollment_status 0 c = some ("danger", "🚨", StatusText.criticalNoStudents) ∧
    get_enrollment_status 1 c = some ("danger", "🚨", StatusText.criticalOnly1Student) ∧
    get_enrollment_status 2 c = some ("warning", "⚠️", StatusText.warningOnly2Students) ∧
    get_enrollment_status 3 c = some ("warning", "⚠️", StatusText.warningOnly3Students) := by
  unfold get_enrollment_status
  norm_num

/-- C10: `get_enrollment_status` is capacity-independent and total for
counts 0-3, but for counts ≥ 4 it divides by the capacity with no guard:
capacity 0 gives no result (`none`), any nonzero capacity gives one. -/
theorem c10_status_totality (e c : ℤ) :
    (0 ≤ e → e < 4 → ∀ c' : ℤ,
      get_enrollment_status e c = get_enrollment_status e c' ∧
      (get_enrollment_status e c).isSome = true) ∧
    (4 ≤ e → c = 0 → get_enrollment_status e c = none) ∧
    (4 ≤ e → c ≠ 0 → (get_enrollment_status e c).isSome = true) := by
  refine ⟨?_, ?_, ?_⟩
  · intro h1 h2 c'
    interval_cases e <;> simp [get_enrollment_status]
  · intro h1 h2
    subst h2
    have e0 : ¬e = 0 := by omega
    have e1 : ¬e = 1 := by omega
    have e2 : ¬e = 2 := by omega
    have e3 : ¬e = 3 := by omega
    simp [get_enrollment_status, e0, e1, e2, e3]
  · intro h1 h2
    have e0 : ¬e = 0 := by omega
    have e1 : ¬e = 1 := by omega
    have e2 : ¬e = 2 := by omega
    have e3 : ¬e = 3 := by omega
    simp only [get_enrollment_status, if_neg e0, if_neg e1, if_neg e2,
      if_neg e3, if_neg h2]
    split_ifs <;> rfl

/-- Witness for C10: count 5 with capacity 0 is undefined; count 4 with
capacity 2 is defined. -/
theorem c10_status_totality_witness :
    get_enrollment_status 5 0 = none ∧
    (get_enrollment_status 4 2).isSome = true :=
  ⟨(c10_status_totality 5 0).2.1 (by norm_num) rfl,
    (c10_status_totality 4 2).2.2 (by norm_num) (by norm_num)⟩

/-- `categorize_enrollment_rate` (`src/app.py` lines 2213-2225): the
six-way bucketing of an enrollment rate for the distribution pie chart. -/
def categorize_enrollment_rate (rate : ℚ) : String :=
  if rate = 0 then "0% (No Students)"
  else if rate ≤ 25 then "1-25% (Low)"
  else if rate ≤ 50 then "26-50% (Medium)"
  else if rate ≤ 75 then "51-75% (Good)"
  else if rate ≤ 99 then "76-99% (High)"
  else "100% (Full)"

/-- C6: on `[0, ∞)` the bucketing is total with six non-overlapping,
gap-free buckets: each label is returned exactly on the stated interval,
so every nonnegative rate falls in exactly one bucket. -/
theorem c6_bucketing (r : ℚ) (h : 0 ≤ r) :
    (categorize_enrollment_rate r = "0% (No Students)" ↔ r = 0) ∧
    (categorize_enrollment_rate r = "1-25% (Low)" ↔ 0 < r ∧ r ≤ 25) ∧
    (categorize_enrollment_rate r = "26-50% (Medium)" ↔ 25 < r ∧ r ≤ 50) ∧
    (categorize_enrollment_rate r = "51-75% (Good)" ↔ 50 < r ∧ r ≤ 75) ∧
    (categorize_enrollment_rate r = "76-99% (High)" ↔ 75 < r ∧ r ≤ 99) ∧
    (categorize_enrollment_rate r = "100% (Full)" ↔ 99 < r) := by
  rcases h.lt_or_eq with hpos | hzero
  · unfold categorize_enrollment_rate
    rw [if_neg hpos.ne']
    split_ifs with h2 h3 h4 h5 <;>
      refine ⟨?_, ?_, ?_, ?_, ?_, ?_⟩ <;> simp_all <;>
      first
        | linarith
        | (intro <;> linarith)
  · rw [← hzero]
    unfold categorize_enrollment_rate
    norm_num
    decide

/-- Witness for C6 at rate 30. -/
theorem c6_bucketing_witness :
    categorize_enrollment_rate 30 = "26-50% (Medium)" :=
  ((c6_bucketing 30 (by norm_num)).2.2.1).mpr (by norm_num)

/-- `categorize_faculty_contract` (`src/app.py` lines 133-162): the static
faculty-name → contract-type table, defaulting to `'Unknown'`. -/
def categorize_faculty_contract (faculty_name : String) : String :=
  if faculty_name = "Lello Molinari" then "FT"
  else if faculty_name = "Eric Doob" then "FT"
  else if faculty_name = "Sharik Hasan" then "FT"
  else if faculty_name = "Robert Schlink" then "FT"
  else if faculty_name = "Consuelo Candelaria-Barry" then "FT"
  else if faculty_name = "Albino Mbie" then "PT3yr"
  else if faculty_name = "Mark Copeland" then "PT3yr"
  else if faculty_name = "Ricardo Monzon" then "PT_special"
  else if faculty_name = "Alexandria Dewalt" then "PT_special"
  else if faculty_name = "Robert Pate" then "PT_special"
  else if faculty_name = "Anastassiya Petrova" then "PT_special"
  else if faculty_name = "Tolieth Marks" then "adjunct"
  else if faculty_name = "Elan Trotman" then "adjunct"
  else "Unknown"

/-- The `contract_priority` dict of `get_registration_priority_score`
(`src/app.py` lines 180-186), including the `.get(contract_type, 0)`
default for unknown keys. -/
def contract_priority (contract_type : String) : ℚ :=
  if contract_type = "FT" then 4
  else if contract_type = "PT3yr" then 3
  else if contract_type = "PT_special" then 2
  else if contract_type = "adjunct" then 1
  else 0

/-- `get_registration_priority_score` (`src/app.py` lines 175-195):
`enrolled_count * 10 + contract_priority[contract_type]`. -/
def get_registration_priority_score (enrolled_count : ℚ)
    (contract_type : String) : ℚ :=
  enrolled_count * 10 + contract_priority contract_type

/-- C3: for integer student counts, a strictly larger count gives a
strictly larger priority score regardless of either contract type — the
×10 count component dominates the contract component, which is always in
`[0, 4]`. -/
theorem c3_student_count_dominates (m n : ℤ) (cta ctb : String)
    (hmn : n < m) :
    get_registration_priority_score (n : ℚ) ctb <
      get_registration_priority_score (m : ℚ) cta := by
  have hb : contract_priority ctb ≤ 4 := by
    unfold contract_priority; split_ifs <;> norm_num
  have ha : 0 ≤ contract_priority cta := by
    unfold contract_priority; split_ifs <;> norm_num
  have hm : (n : ℚ) + 1 ≤ (m : ℚ) := by
    have := Int.add_one_le_iff.mpr hmn
    exact_mod_cast this
  unfold get_registration_priority_score
  linarith

/-- Witness for C3: one student with a full-time contract scores below two
students with an unknown contract (14 < 20). -/
theorem c3_student_count_dominates_witness :
    get_registration_priority_score ((1 : ℤ) : ℚ) "FT" <
      get_registration_priority_score ((2 : ℤ) : ℚ) "Unknown" :=
  c3_student_count_dominates 2 1 "Unknown" "FT" (by norm_num)

/-- The guard `isinstance(faculty_names, list) and faculty_names` of
`analyze_registration_preferences` (`src/app.py` line 203): the record has
a real, nonempty faculty-name list. -/
def hasFaculty (r : ClassRecord) : Bool :=
  match r.facnamepreffml with
  | some (_ :: _) => true
  | _ => false

/-- One row of the `registration_data` list built by
`analyze_registration_preferences` (`src/app.py` lines 219-234), kept to
the fields the analysis derives (display-only fields omitted). -/
structure RegEntry where
  section_name : String
  faculty : String
  contract_type : String
  enrolled_count : Option ℚ
  priority_score : Option ℚ
  deriving DecidableEq

/-- The loop body of `analyze_registration_preferences` (`src/app.py`
lines 201-234): records whose faculty field is not a nonempty list are
skipped; otherwise the FIRST faculty name is looked up and the priority
score computed (`none` count, i.e. NaN, propagates into the score). -/
def toRegEntry (r : ClassRecord) : Option RegEntry :=
  match r.facnamepreffml with
  | some (f :: _) =>
    some { section_name := r.sectionName
           faculty := f
           contract_type := categorize_faculty_contract f
           enrolled_count := r.activestucount
           priority_score := r.activestucount.map
             (fun e => get_registration_priority_score e
               (categorize_faculty_contract f)) }
  | _ => none

/-- The sort key `x['priority_score']` (`src/app.py` line 237).  A missing
(NaN) score is mapped to 0: Python's comparison-based sort has no
specified order for NaN keys, and every theorem below that talks about
order assumes the scores are present. -/
def scoreKey (e : RegEntry) : ℚ := e.priority_score.getD 0

/-- Descending order on priority scores, the comparison underlying
`registration_data.sort(key=..., reverse=True)` (`src/app.py` line 237). -/
def regGE (e1 e2 : RegEntry) : Prop := scoreKey e2 ≤ scoreKey e1

instance : DecidableRel regGE := fun e1 e2 => by
  unfold regGE; infer_instance

instance : IsTotal RegEntry regGE :=
  ⟨fun a b => le_total (scoreKey b) (scoreKey a)⟩

instance : IsTrans RegEntry regGE :=
  ⟨fun _ _ _ hab hbc => le_trans hbc hab⟩

/-- `analyze_registration_preferences` (`src/app.py` lines 197-238):
build one entry per record with a nonempty faculty list, then sort by
priority score, highest first (a stable sort, like Python's). -/
def analyze_registration_preferences (rs : List ClassRecord) :
    List RegEntry :=
  (rs.filterMap toRegEntry).insertionSort regGE

/-- The unsorted entry list has exactly one entry per record with a
nonempty faculty list. -/
theorem length_filterMap_toRegEntry (rs : List ClassRecord) :
    (rs.filterMap toRegEntry).length =
      (rs.filter (fun r => hasFaculty r)).length := by
  induction rs with
  | nil => rfl
  | cons r rs ih =>
    rw [List.filterMap_cons, List.filter_cons]
    rcases hr : r.facnamepreffml with _ | (_ | ⟨f, fs⟩)
    · simp [toRegEntry, hasFaculty, hr, ih]
    · simp [toRegEntry, hasFaculty, hr, ih]
    · simp [toRegEntry, hasFaculty, hr, ih]

/-- C4: the registration-preference analysis (i) uses the contract
priorities FT 4, PT3yr 3, PT_special 2, adjunct 1, Unknown 0, (ii) scores
exactly the records that have at least one faculty name, (iii) gives every
produced entry the contract type and score of the FIRST listed faculty
name, with score `activestucount * 10 + contract_priority`, and (iv)
returns the entries sorted in descending priority-score order — all under
the hypothesis that scored records have a present (non-NaN) student
count, since Python's sort order on NaN keys is unspecified. -/
theorem c4_registration_analysis (rs : List ClassRecord)
    (hcount : ∀ r ∈ rs, hasFaculty r = true → r.activestucount ≠ none) :
    contract_priority "FT" = 4 ∧ contract_priority "PT3yr" = 3 ∧
    contract_priority "PT_special" = 2 ∧ contract_priority "adjunct" = 1 ∧
    contract_priority "Unknown" = 0 ∧
    (analyze_registration_preferences rs).length =
      (rs.filter (fun r => hasFaculty r)).length ∧
    (∀ e ∈ analyze_registration_preferences rs, ∃ r ∈ rs, ∃ f fs,
      r.facnamepreffml = some (f :: fs) ∧ e.faculty = f ∧
      e.contract_type = categorize_faculty_contract f ∧
      e.priority_score = r.activestucount.map
        (fun q => get_registration_priority_score q
          (categorize_faculty_contract f)) ∧
      e.priority_score ≠ none) ∧
    (analyze_registration_preferences rs).Pairwise
      (fun e1 e2 => ∀ q1 q2, e1.priority_score = some q1 →
        e2.priority_score = some q2 → q2 ≤ q1) := by
  refine ⟨by decide, by decide, by decide, by decide, by decide, ?_, ?_, ?_⟩
  · rw [analyze_registration_preferences,
      (List.perm_insertionSort regGE _).length_eq]
    exact length_filterMap_toRegEntry rs
  · intro e he
    rw [analyze_registration_preferences, List.mem_insertionSort] at he
    obtain ⟨r, hrmem, hre⟩ := List.mem_filterMap.mp he
    rcases hr : r.facnamepreffml with _ | (_ | ⟨f, fs⟩)
    · rw [toRegEntry, hr] at hre; cases hre
    · rw [toRegEntry, hr] at hre; cases hre
    · rw [toRegEntry, hr] at hre
      obtain rfl := Option.some.inj hre
      have hfac : hasFaculty r = true := by rw [hasFaculty, hr]
      have hnz := hcount r hrmem hfac
      refine ⟨r, hrmem, f, fs, hr, rfl, rfl, rfl, ?_⟩
      rcases h : r.activestucount with _ | q
      · exact absurd h hnz
      · simp [h]
  · have hs := List.sorted_insertionSort regGE (rs.filterMap toRegEntry)
    exact hs.imp fun h q1 q2 h1 h2 => by
      rw [regGE, scoreKey, scoreKey, h1, h2] at h
      exact h

/-- Concrete record for C4's witness: full-time faculty, 2 students. -/
def c4RecA : ClassRecord :=
  { sectionName := "ENS-201-001"
    titlelongcrs := some ["Jazz Workshop"]
    facnamepreffml := some ["Lello Molinari"]
    seatsavail := some 3
    activestucount := some 2
    seatscap := some 5
    ratingOverall := none
    style := "Jazz"
    days := some ["Mon"]
    startTime := some ["9:00 AM"]
    endTime := some ["10:50 AM"]
    rhythm_instruments := ["GUIT", "PNO", "BASS", "DRUMS", "VOICE"]
    rhythm_enrolled := [1, 0, 0, 1, 0]
    rhythm_needed := ["PNO"] }

/-- Concrete record for C4's witness: adjunct faculty, 2 students. -/
def c4RecB : ClassRecord :=
  { sectionName := "ENS-202-001"
    titlelongcrs := some ["Blues Lab"]
    facnamepreffml := some ["Elan Trotman"]
    seatsavail := some 4
    activestucount := some 2
    seatscap := some 6
    ratingOverall := some 3
    style := "Blues"
    days := some ["Tue"]
    startTime := some ["1:00 PM"]
    endTime := some ["2:50 PM"]
    rhythm_instruments := ["GUIT", "PNO", "BASS", "DRUMS", "VOICE"]
    rhythm_enrolled := [0, 1, 0, 0, 0]
    rhythm_needed := ["BASS", "DRUMS"] }

/-- Witness for C4 on a concrete two-record input. -/
theorem c4_registration_analysis_witness :
    (analyze_registration_preferences [c4RecA, c4RecB]).length =
      ([c4RecA, c4RecB].filter (fun r => hasFaculty r)).length :=
  (c4_registration_analysis [c4RecA, c4RecB] (by decide)).2.2.2.2.2.1

/-- `extract_time_slot` (`src/app.py` lines 2300-2310): classify a record
by its first `startTime` string — `'AM' in time` → Morning; else
`'PM' in time` and one of the substrings `'12:'`, `'1:'`, `'2:'`, `'3:'`
present → Afternoon; else with `'PM'` → Evening; anything else (not a
list, empty list, or neither marker present) → Unknown. -/
def extract_time_slot (time_str : Option (List String)) : String :=
  match time_str with
  | some (t :: _) =>
    if pyIn "AM" t then "Morning"
    else if pyIn "PM" t then
      if pyIn "12:" t || pyIn "1:" t || pyIn "2:" t || pyIn "3:" t then
        "Afternoon"
      else "Evening"
    else "Unknown"
  | _ => "Unknown"

/-- C5 counterexample: a record starting at `"11:00 PM"` is classified
Afternoon, not Evening — the code tests the substring `'1:'`, which also
occurs inside `'11:'`, rather than the hour token. -/
theorem c5_eleven_pm_counterexample :
    extract_time_slot (some ["11:00 PM"]) = "Afternoon" ∧
    ("Afternoon" : String) ≠ "Evening" := by
  refine ⟨by decide, by decide⟩

/-- C5 (amended): Morning when the first start-time string contains
`"AM"`; Afternoon when it contains `"PM"` and one of the SUBSTRINGS
`"12:"`, `"1:"`, `"2:"`, `"3:"` (so an 11 PM start, whose text contains
`"1:"`, is Afternoon); Evening when it contains `"PM"` and none of those
substrings; Unknown when the start time is missing or has neither
marker. -/
theorem c5_time_slot (t : String) (rest : List String) :
    (pyIn "AM" t = true → extract_time_slot (some (t :: rest)) = "Morning") ∧
    (pyIn "AM" t = false → pyIn "PM" t = true →
      (pyIn "12:" t || pyIn "1:" t || pyIn "2:" t || pyIn "3:" t) = true →
      extract_time_slot (some (t :: rest)) = "Afternoon") ∧
    (pyIn "AM" t = false → pyIn "PM" t = true →
      (pyIn "12:" t || pyIn "1:" t || pyIn "2:" t || pyIn "3:" t) = false →
      extract_time_slot (some (t :: rest)) = "Evening") ∧
    (pyIn "AM" t = false → pyIn "PM" t = false →
      extract_time_slot (some (t :: rest)) = "Unknown") ∧
    extract_time_slot none = "Unknown" ∧
    extract_time_slot (some []) = "Unknown" := by
  refine ⟨?_, ?_, ?_, ?_, rfl, rfl⟩
  · intro h1; simp [extract_time_slot, h1]
  · intro h1 h2 h3; simp [extract_time_slot, h1, h2, h3]
  · intro h1 h2 h3; simp [extract_time_slot, h1, h2, h3]
  · intro h1 h2; simp [extract_time_slot, h1, h2]

/-- Witness for C5's amended theorem at `"9:00 AM"`. -/
theorem c5_time_slot_witness :
    extract_time_slot (some ["9:00 AM"]) = "Morning" :=
  (c5_time_slot "9:00 AM" []).1 (by decide)

/-- `', '.join(...) if isinstance(..., list) else 'N/A'` applied to the
faculty-name field (`src/app.py` line 87). -/
def facultyJoined (r : ClassRecord) : String :=
  match r.facnamepreffml with
  | some l => String.intercalate ", " l
  | none => "N/A"

/-- First course title, or `'N/A'` when the field is not a nonempty list
(`src/app.py` line 86). -/
def courseTitleFirst (r : ClassRecord) : String :=
  match r.titlelongcrs with
  | some (t :: _) => t
  | _ => "N/A"

/-- The per-record classification of `identify_performance_classes`
(`src/app.py` lines 89-106): the three pattern rules in source order,
first match recorded as the reason; `none` when no rule matches. -/
def performance_reason (r : ClassRecord) : Option String :=
  if pyIn "ENMX-100" r.sectionName then
    some "ENMX-100 Performance Class"
  else if pyIn "PISJ" (facultyJoined r) || pyIn "ENDS" (facultyJoined r) then
    some ("Faculty " ++ facultyJoined r ++
      " - Cannot be scheduled for rating auditions")
  else if pyIn "PERFORMANCE" (upperStr (courseTitleFirst r)) ||
      pyIn "ENSEMBLE" (upperStr (courseTitleFirst r)) ||
      pyIn "RECITAL" (upperStr (courseTitleFirst r)) then
    some "Performance/Ensemble Class"
  else none

/-- C8: a record is a performance class iff at least one of the three
substring rules matches — `"ENMX-100"` in the section name; `"PISJ"` or
`"ENDS"` in the joined faculty string; `"PERFORMANCE"`, `"ENSEMBLE"` or
`"RECITAL"` in the uppercased course title — and the first matching
rule's label (in that order) is recorded as the reason. -/
theorem c8_performance_classes (r : ClassRecord) :
    ((performance_reason r).isSome =
      (pyIn "ENMX-100" r.sectionName ||
        (pyIn "PISJ" (facultyJoined r) || pyIn "ENDS" (facultyJoined r)) ||
        (pyIn "PERFORMANCE" (upperStr (courseTitleFirst r)) ||
          pyIn "ENSEMBLE" (upperStr (courseTitleFirst r)) ||
          pyIn "RECITAL" (upperStr (courseTitleFirst r))))) ∧
    (pyIn "ENMX-100" r.sectionName = true →
      performance_reason r = some "ENMX-100 Performance Class") ∧
    (pyIn "ENMX-100" r.sectionName = false →
      (pyIn "PISJ" (facultyJoined r) || pyIn "ENDS" (facultyJoined r)) = true →
      performance_reason r = some ("Faculty " ++ facultyJoined r ++
        " - Cannot be scheduled for rating auditions")) ∧
    (pyIn "ENMX-100" r.sectionName = false →
      (pyIn "PISJ" (facultyJoined r) || pyIn "ENDS" (facultyJoined r)) = false →
      (pyIn "PERFORMANCE" (upperStr (courseTitleFirst r)) ||
        pyIn "ENSEMBLE" (upperStr (courseTitleFirst r)) ||
        pyIn "RECITAL" (upperStr (courseTitleFirst r))) = true →
      performance_reason r = some "Performance/Ensemble Class") := by
  refine ⟨?_, ?_, ?_, ?_⟩
  · unfold performance_reason
    split_ifs with h1 h2 h3 <;> simp_all
  · intro h1; simp [performance_reason, h1]
  · intro h1 h2; simp [performance_reason, h1, h2]
  · intro h1 h2 h3; simp [performance_reason, h1, h2, h3]

/-- Concrete record for C8's witness: an ENMX-100 section. -/
def c8Rec : ClassRecord :=
  { sectionName := "ENMX-100-002"
    titlelongcrs := some ["Private Study"]
    facnamepreffml := some ["Mark Copeland"]
    seatsavail := some 1
    activestucount := some 1
    seatscap := some 2
    ratingOverall := none
    style := "Classical"
    days := some ["Wed"]
    startTime := some ["10:00 AM"]
    endTime := some ["11:00 AM"]
    rhythm_instruments := []
    rhythm_enrolled := []
    rhythm_needed := [] }

/-- Witness for C8: the ENMX-100 rule fires with its label. -/
theorem c8_performance_classes_witness :
    performance_reason c8Rec = some "ENMX-100 Performance Class" :=
  (c8_performance_classes c8Rec).2.1 (by decide)

/-- Python regular-expression metacharacters.  The pattern model below is
faithful to `re` only for terms made of literals and the `.` wildcard, so
every theorem about literal search terms excludes all of these. -/
def isRegexMeta (c : Char) : Bool :=
  ['.', '^', '$', '*', '+', '?', '\x7b', '\x7d',
   '[', ']', '(', ')', '|', '\\'].contains c

/-- A token of the modelled pattern: the `.` wildcard or a literal. -/
inductive RTok where
  | wild
  | lit (c : Char)
  deriving DecidableEq

/-- How `Series.str.contains(term, case=False, na=False)` — a REGEX
containment, pandas' default — reads the search term: `.` matches any
character, other characters match themselves case-insensitively (their
lowered form against lowered text). -/
def parseRe (s : String) : List RTok :=
  s.toList.map (fun c => if c = '.' then RTok.wild else RTok.lit c.toLower)

/-- One pattern token against one (already lowered) character. -/
def tokMatch : RTok → Char → Bool
  | RTok.wild, _ => true
  | RTok.lit c, d => c == d

/-- The pattern matches some prefix of the text. -/
def reMatchPref : List RTok → List Char → Bool
  | [], _ => true
  | _ :: _, [] => false
  | t :: ts, c :: cs => tokMatch t c && reMatchPref ts cs

/-- `re.search`-style containment: the pattern matches at some position. -/
def reContains (p : List RTok) : List Char → Bool
  | [] => reMatchPref p []
  | c :: cs => reMatchPref p (c :: cs) || reContains p cs

/-- The free-text search filter of `main` (`src/app.py` lines 2390-2396)
on one record: `str.contains(term, case=False, na=False)` — regex
containment — on the section name, OR a plain case-insensitive substring
test against every faculty name, OR the same against every course title
(non-list fields contribute `False`). -/
def searchMatch (term : String) (r : ClassRecord) : Bool :=
  reContains (parseRe term) (lowerList r.sectionName.toList) ||
  (match r.facnamepreffml with
   | some l => l.any (fun n => pyInCI term n)
   | none => false) ||
  (match r.titlelongcrs with
   | some l => l.any (fun t => pyInCI term t)
   | none => false)

/-- The search as the claim words it: the term occurs case-insensitively
as a SUBSTRING of the section name, of some faculty name, or of some
course title (refinement reference, written from the claim's words). -/
def searchMatchSpec (term : String) (r : ClassRecord) : Bool :=
  pyInCI term r.sectionName ||
  (match r.facnamepreffml with
   | some l => l.any (fun n => pyInCI term n)
   | none => false) ||
  (match r.titlelongcrs with
   | some l => l.any (fun t => pyInCI term t)
   | none => false)

/-- Concrete record for C9's counterexample: no field contains a `.`. -/
def c9Rec : ClassRecord :=
  { sectionName := "ENS-301-001"
    titlelongcrs := some ["Rock Lab"]
    facnamepreffml := some ["Robert Pate"]
    seatsavail := some 2
    activestucount := some 6
    seatscap := some 8
    ratingOverall := some 4
    style := "Rock"
    days := some ["Thu"]
    startTime := some ["4:00 PM"]
    endTime := some ["5:50 PM"]
    rhythm_instruments := ["GUIT", "PNO", "BASS", "DRUMS", "VOICE"]
    rhythm_enrolled := [1, 1, 1, 1, 1]
    rhythm_needed := [] }

/-- C9 counterexample: the search term `"."` returns a record none of
whose fields contain `"."` as a substring — `str.contains` treats the
term as a regular expression on the section name, where `.` matches any
character.  The claim says match iff the term occurs as a substring, for
arbitrary terms including regex metacharacters. -/
theorem c9_regex_counterexample :
    searchMatch "." c9Rec = true ∧ searchMatchSpec "." c9Rec = false :=
  ⟨by decide, by decide⟩

/-- A literal pattern matches a prefix exactly when the character list
does. -/
theorem reMatchPref_all_lit (ls cs : List Char) :
    reMatchPref (ls.map RTok.lit) cs = listPrefB ls cs := by
  induction ls generalizing cs with
  | nil => cases cs <;> rfl
  | cons a as ih =>
    cases cs with
    | nil => rfl
    | cons c cs' => simp [reMatchPref, listPrefB, tokMatch, ih]

/-- A literal pattern is contained exactly when the character list is a
contiguous substring. -/
theorem reContains_all_lit (ls hay : List Char) :
    reContains (ls.map RTok.lit) hay = listInfB ls hay := by
  induction hay with
  | nil =>
    cases ls <;>
      simp [reContains, listInfB, reMatchPref, listPrefB]
  | cons c cs ih =>
    simp [reContains, listInfB, reMatchPref_all_lit, ih]

/-- A term with no metacharacter parses to an all-literal pattern. -/
theorem parseRe_no_meta (term : String)
    (h : ∀ c ∈ term.toList, isRegexMeta c = false) :
    parseRe term = (lowerList term.toList).map RTok.lit := by
  unfold parseRe lowerList
  rw [List.map_map]
  apply List.map_congr_left
  intro c hc
  have hne : c ≠ '.' := by
    intro he
    have := h c hc
    rw [he] at this
    exact absurd this (by decide)
  rw [if_neg hne]
  rfl

/-- C9 (amended): for search terms containing no regex metacharacter, a
record is in the result iff the term occurs case-insensitively as a
substring of the section name, of some faculty name, or of some course
title (logical OR over the three fields and all list elements).  For
terms with metacharacters the section-name test is regex containment, not
a substring test (see the counterexample). -/
theorem c9_search (term : String) (r : ClassRecord)
    (hterm : ∀ c ∈ term.toList, isRegexMeta c = false) :
    searchMatch term r = searchMatchSpec term r := by
  unfold searchMatch searchMatchSpec pyInCI
  rw [parseRe_no_meta term hterm, reContains_all_lit]

/-- Concrete record for C9's witness. -/
def c9RecW : ClassRecord :=
  { sectionName := "ENS-305-001"
    titlelongcrs := some ["World Strings"]
    facnamepreffml := some ["Sharik Hasan"]
    seatsavail := some 5
    activestucount := some 3
    seatscap := some 8
    ratingOverall := none
    style := "World"
    days := some ["Fri"]
    startTime := some ["2:00 PM"]
    endTime := some ["3:50 PM"]
    rhythm_instruments := ["GUIT", "PNO", "BASS", "DRUMS", "VOICE"]
    rhythm_enrolled := [1, 0, 1, 0, 1]
    rhythm_needed := ["PNO", "DRUMS"] }

/-- Witness for C9's amended theorem: the metacharacter-free term
`"hasa"` matches only via a faculty name, and the record is returned. -/
theorem c9_search_witness :
    searchMatch "hasa" c9RecW = searchMatchSpec "hasa" c9RecW ∧
    searchMatchSpec "hasa" c9RecW = true :=
  ⟨c9_search "hasa" c9RecW (by decide), by decide⟩

end EnsHub
